import Mathlib

/-!
Verification of `claudevoice/notify.py` (a Claude Code voice notification hook)
against its natural-language specification.

The Python source is shallowly embedded:
* JSON values (what `json.loads` / `json.load` return) are the inductive `Json`;
  JSON numbers are modelled as integers (the claims never involve fractional
  numbers).
* Python dictionaries are association lists `List (String × Json)` with unique
  keys (what parsing a JSON object yields); `dict.get` is `dictGet` / `pyGetD`.
* Fallible Python code runs in `Except PyExc`; `PyExc` mirrors the exception
  classes this program can raise or catch (`FileNotFoundError` and
  `PermissionError` are subclasses of `OSError`, reflected by `PyExc.isOSError`).
* The filesystem is an explicit parameter `FS`: a path maps to `none` (opening
  fails with `FileNotFoundError`) or to the list of JSON parse results of the
  file's non-blank stripped lines (`none` in the list = a line on which
  `json.loads` raises `JSONDecodeError`; blank lines, skipped by the scan loop,
  are omitted from the model).
* String primitives (`len`, slicing, `find`, `rfind`, `strip`, `rstrip`,
  `replace`, `splitlines`) are defined over `String.data` with Python's
  semantics.  `strip`/`rstrip` use the six ASCII whitespace characters;
  `splitlines` splits on `\n`, `\r\n` and `\r` (the further Unicode line
  boundaries of Python are not modelled, no claim depends on them).
-/

inductive Json where
  | null : Json
  | bool (b : Bool) : Json
  | num (n : Int) : Json
  | str (s : String) : Json
  | arr (xs : List Json) : Json
  | obj (kvs : List (String × Json)) : Json

/-- Python exception classes that the embedded code can raise or catch. -/
inductive PyExc where
  | fileNotFoundError : PyExc
  | permissionError : PyExc
  | osError : PyExc
  | jsonDecodeError : PyExc
  | keyError : PyExc
  | attributeError : PyExc
  | typeError : PyExc
deriving DecidableEq, Repr

/-- `FileNotFoundError` and `PermissionError` inherit from `OSError`. -/
def PyExc.isOSError : PyExc → Bool
  | .fileNotFoundError => true
  | .permissionError => true
  | .osError => true
  | _ => false

/-- Python truthiness of a JSON value (`if x:`). -/
def Json.truthy : Json → Bool
  | .null => false
  | .bool b => b
  | .num n => n != 0
  | .str s => s != ""
  | .arr xs => !xs.isEmpty
  | .obj kvs => !kvs.isEmpty

/-- Python `x == s` where `s` is a string literal: true only for an equal
string (Python never equates a string with another JSON type). -/
def Json.eqStr : Json → String → Bool
  | .str t, s => t = s
  | _, _ => false

/-- Is the value a Python `str`? -/
def Json.isStr : Json → Bool
  | .str _ => true
  | _ => false

/-- Association-list lookup, the model of indexing a parsed JSON object
(parsed objects have unique keys, so first match is the match). -/
def dictGet : List (String × Json) → String → Option Json
  | [], _ => none
  | (k, v) :: rest, key => if k = key then some v else dictGet rest key

/-- Python `d.get(key, default)`: returns the bound value or the default when
`d` is a dict, raises `AttributeError` when `d` is any other JSON value. -/
def pyGetD (j : Json) (key : String) (dflt : Json) : Except PyExc Json :=
  match j with
  | .obj kvs => .ok ((dictGet kvs key).getD dflt)
  | _ => .error .attributeError

/-- Python `d[key]` on a dict: raises `KeyError` when the key is absent. -/
def pyIndex (j : Json) (key : String) : Except PyExc Json :=
  match j with
  | .obj kvs =>
    match dictGet kvs key with
    | some v => .ok v
    | none => .error .keyError
  | _ => .error .typeError

/-- Python `for x in j`: lists yield elements, strings yield one-character
strings, dicts yield their keys, other values raise `TypeError`. -/
def pyIter : Json → Except PyExc (List Json)
  | .arr xs => .ok xs
  | .str s => .ok (s.data.map (fun c => Json.str (String.mk [c])))
  | .obj kvs => .ok (kvs.map (fun kv => Json.str kv.1))
  | _ => .error .typeError

/-- A JSON value used where `str` is required (`.strip()` on `last_text`);
non-strings raise `AttributeError`. -/
def pyAsStr : Json → Except PyExc String
  | .str s => .ok s
  | _ => .error .attributeError

-- ---------------------------------------------------------------------------
-- String primitives with Python semantics
-- ---------------------------------------------------------------------------

/-- The ASCII whitespace characters stripped by Python `str.strip()`. -/
def pyIsSpace (c : Char) : Bool :=
  c = ' ' || c = '\t' || c = '\n' || c = '\r' || c = Char.ofNat 11 || c = Char.ofNat 12

/-- `len(s)`. -/
def pyLen (s : String) : Nat := s.data.length

/-- `s[:n]` for `n ≥ 0`. -/
def pyTake (s : String) (n : Nat) : String := String.mk (s.data.take n)

/-- `s.rstrip()`. -/
def pyRstrip (s : String) : String :=
  String.mk ((s.data.reverse.dropWhile pyIsSpace).reverse)

/-- `s.strip()`. -/
def pyStrip (s : String) : String :=
  String.mk (((s.data.dropWhile pyIsSpace).reverse.dropWhile pyIsSpace).reverse)

/-- `s.rfind(c)` for a one-character needle: the greatest index holding `c`,
`-1` when absent. -/
def lastIdxOf (cs : List Char) (c : Char) : Int :=
  match cs with
  | [] => -1
  | x :: xs =>
    if lastIdxOf xs c ≥ 0 then lastIdxOf xs c + 1
    else if x = c then 0 else -1

/-- `s.find(c)` for a one-character needle: the least index holding `c`,
`-1` when absent. -/
def firstIdxOf (cs : List Char) (c : Char) : Int :=
  match cs with
  | [] => -1
  | x :: xs =>
    if x = c then 0
    else if firstIdxOf xs c ≥ 0 then firstIdxOf xs c + 1 else -1

/-- Core of Python `s.replace(old, new)` over character lists: leftmost,
non-overlapping, the replacement text is never rescanned.  The `Nat` is fuel
(structural recursion); every call site passes at least the list's length, so
the `0` fallback is never reached. -/
def replaceAux (pat rep : List Char) : Nat → List Char → List Char
  | _, [] => []
  | 0, l => l
  | fuel + 1, c :: cs =>
    if pat.isPrefixOf (c :: cs) then
      rep ++ replaceAux pat rep fuel (cs.drop (pat.length - 1))
    else
      c :: replaceAux pat rep fuel cs

/-- Python `s.replace(old, new)` (for the non-empty `old` this program uses). -/
def pyReplace (s pat rep : String) : String :=
  String.mk (replaceAux pat.data rep.data s.data.length s.data)

/-- `template.replace(pat, rep)` as the source calls it: the receiver must be a
`str` (else `AttributeError`), the replacement argument must be a `str`
(else `TypeError`). -/
def pyReplaceJ (template : Json) (pat : String) (rep : Json) : Except PyExc String :=
  match template with
  | .str t =>
    match rep with
    | .str r => .ok (pyReplace t pat r)
    | _ => .error .typeError
  | _ => .error .attributeError

/-- Python `s.splitlines()` over `\n`, `\r\n`, `\r` (no trailing empty line
for a terminated string, `[]` for the empty string). -/
def splitlinesAux : List Char → List Char → List (List Char)
  | acc, [] => if acc.isEmpty then [] else [acc.reverse]
  | acc, '\r' :: '\n' :: rest => acc.reverse :: splitlinesAux [] rest
  | acc, '\n' :: rest => acc.reverse :: splitlinesAux [] rest
  | acc, '\r' :: rest => acc.reverse :: splitlinesAux [] rest
  | acc, c :: rest => splitlinesAux (c :: acc) rest

def pySplitlines (s : String) : List String :=
  (splitlinesAux [] s.data).map String.mk

-- ---------------------------------------------------------------------------
-- notify.py: constants and _truncate
-- ---------------------------------------------------------------------------

def MAX_MESSAGE_LENGTH : Nat := 200

/-- `notify.py` lines 74-82: length-capping. -/
def _truncate (text : String) (max_len : Nat) : String :=
  if pyLen text ≤ max_len then text
  else
    let cut := pyTake text max_len
    let last_period := lastIdxOf cut.data '.'
    if last_period > (max_len : Int) / 2 then
      pyTake cut (last_period.toNat + 1)
    else
      pyRstrip cut ++ "."

-- ---------------------------------------------------------------------------
-- notify.py: _extract_summary (transcript summarizer)
-- ---------------------------------------------------------------------------

/-- Lines 104-110 of `notify.py`: the post-scan snippet step applied to the
captured assistant text (`last_text`, already known to be a non-empty string).
`[l.strip() for l in last_text.strip().splitlines() if l.strip()]`, then the
last such line (or the stripped text when none), then first-period trimming. -/
def summarize_snippet (last_text : String) : String :=
  let stripped := pyStrip last_text
  let lines := (pySplitlines stripped).filterMap
    (fun l => if pyStrip l = "" then none else some (pyStrip l))
  let snippet := lines.getLast?.getD stripped
  let period := firstIdxOf snippet.data '.'
  if 0 < period ∧ period < 150 then pyTake snippet (period.toNat + 1)
  else pyTake snippet 150

/-- The filesystem: a path maps to the JSON parse results of the non-blank
stripped lines of the file, or to `none` when opening raises. -/
def FS : Type := String → Option (List (Option Json))

/-- `open(transcript_path)`: a string path is looked up in the filesystem
(absence raises `FileNotFoundError`); an int or bool path is an OS file
descriptor, assumed unreadable in this environment (`OSError`); any other
type raises `TypeError`. -/
def pyOpen (fs : FS) : Json → Except PyExc (List (Option Json))
  | .str p =>
    match fs p with
    | some lines => .ok lines
    | none => .error .fileNotFoundError
  | .num _ => .error .osError
  | .bool _ => .error .osError
  | _ => .error .typeError

/-- Lines 98-100 of `notify.py`: one content block; a text block's `"text"`
value replaces the accumulated `last_text`. -/
def blockStep (acc block : Json) : Except PyExc Json := do
  let bty ← pyGetD block "type" Json.null
  if bty.eqStr "text" then pyIndex block "text" else pure acc

/-- Lines 96-100 of `notify.py`: processing of one parsed transcript entry,
threading `last_text` (any JSON value once assigned from `block["text"]`). -/
def processEntry (entry : Json) (last_text : Json) : Except PyExc Json := do
  let ty ← pyGetD entry "type" Json.null
  if ty.eqStr "assistant" then
    let message ← pyGetD entry "message" (Json.obj [])
    let content ← pyGetD message "content" (Json.arr [])
    let blocks ← pyIter content
    blocks.foldlM blockStep last_text
  else
    pure last_text

/-- The scan loop of `_extract_summary` over the parsed lines: a line on which
`json.loads` failed raises `JSONDecodeError` (aborting the read — the
function-level handler then yields the empty summary). -/
def scanLines : List (Option Json) → Json → Except PyExc Json
  | [], last_text => .ok last_text
  | none :: _, _ => .error .jsonDecodeError
  | some entry :: rest, last_text => do
    let acc ← processEntry entry last_text
    scanLines rest acc

/-- Lines 87-100: `open` plus the scan, producing the captured `last_text`. -/
def captured_text (fs : FS) (transcript_path : Json) : Except PyExc Json := do
  let lines ← pyOpen fs transcript_path
  scanLines lines (Json.str "")

/-- The body of `_extract_summary` (inside the `try`). -/
def extract_body (fs : FS) (transcript_path : Json) : Except PyExc String := do
  let last_text ← captured_text fs transcript_path
  if last_text.truthy then do
    let t ← pyAsStr last_text
    pure (summarize_snippet t)
  else
    pure ""

/-- Does `except (OSError, json.JSONDecodeError, KeyError)` catch `e`? -/
def caughtByExtract (e : PyExc) : Bool :=
  e.isOSError || e = .jsonDecodeError || e = .keyError

/-- `notify.py` lines 85-113: `_extract_summary`, with the `try`/`except`
turning the caught exception classes into the empty summary. -/
def _extract_summary (fs : FS) (transcript_path : Json) : Except PyExc String :=
  match extract_body fs transcript_path with
  | .ok s => .ok s
  | .error e => if caughtByExtract e then .ok "" else .error e

-- ---------------------------------------------------------------------------
-- notify.py: configuration and resolve_message
-- ---------------------------------------------------------------------------

/-- `DEFAULT_CONFIG["messages"]` (`notify.py` lines 51-57). -/
def DEFAULT_MESSAGES : List (String × Json) :=
  [("prompt_submit", Json.str "On it."),
   ("stop", Json.str "Done. {summary}"),
   ("notification_permission_prompt", Json.str "Need your permission. {message}"),
   ("notification_idle_prompt", Json.str "Waiting for your input."),
   ("notification_default", Json.str "{message}")]

/-- `DEFAULT_CONFIG` (`notify.py` lines 45-58). -/
def DEFAULT_CONFIG : Json :=
  Json.obj
    [("enabled", Json.bool true),
     ("voice", Json.str "en-US-GuyNeural"),
     ("rate", Json.str "+0%"),
     ("volume", Json.str "+0%"),
     ("pitch", Json.str "+0Hz"),
     ("messages", Json.obj DEFAULT_MESSAGES)]

/-- Python `str(j)` as used by the f-string `f"notification_{notif_type}"`.
Containers render through `reprJ`; string elements inside containers are
rendered quoted but without escape processing (no claim depends on it). -/
def reprJ : Json → String
  | .null => "None"
  | .bool b => if b then "True" else "False"
  | .num n => toString n
  | .str s => "'" ++ s ++ "'"
  | .arr xs => "[" ++ String.intercalate ", " (xs.attach.map (fun x => reprJ x.1)) ++ "]"
  | .obj kvs =>
    "\x7b" ++
      String.intercalate ", "
        (kvs.attach.map (fun kv => "'" ++ kv.1.1 ++ "': " ++ reprJ kv.1.2)) ++
    "\x7d"
decreasing_by
  · obtain ⟨a, ha⟩ := x
    have h := List.sizeOf_lt_of_mem ha
    simp only [Json.arr.sizeOf_spec]
    omega
  · obtain ⟨⟨k, v⟩, ha⟩ := kv
    have h := List.sizeOf_lt_of_mem ha
    simp only [Prod.mk.sizeOf_spec] at h
    simp only [Json.obj.sizeOf_spec]
    omega

def pyStrOf : Json → String
  | .str s => s
  | j => reprJ j

/-- `notify.py` lines 116-146: `resolve_message`.  The event and the
configuration are the JSON documents `main` passes in; `fs` carries the
transcript files.  `none` models Python `None`. -/
def resolve_message (event config : Json) (fs : FS) : Except PyExc (Option Json) := do
  let hook_event ← pyGetD event "hook_event_name" (Json.str "")
  let messages ← pyGetD config "messages" (Json.obj DEFAULT_MESSAGES)

  if hook_event.eqStr "UserPromptSubmit" then do
    let r ← pyGetD messages "prompt_submit" (Json.str "On it.")
    pure (some r)

  else if hook_event.eqStr "Stop" then do
    let sha ← pyGetD event "stop_hook_active" (Json.bool false)
    if sha.truthy then
      pure none
    else do
      let template ← pyGetD messages "stop" (Json.str "Done. {summary}")
      let summary0 ← pyGetD event "transcript_summary" (Json.str "")
      let summary ←
        if summary0.truthy then pure summary0
        else do
          let transcript_path ← pyGetD event "transcript_path" (Json.str "")
          if transcript_path.truthy then do
            let s ← _extract_summary fs transcript_path
            pure (Json.str s)
          else
            pure summary0
      let text ←
        if ¬ summary.truthy then do
          let t ← pyReplaceJ template "{summary}" (Json.str "")
          pure (pyStrip t)
        else do
          let s ← pyReplaceJ template "{summary}" summary
          pure s
      pure (some (Json.str (_truncate text MAX_MESSAGE_LENGTH)))

  else if hook_event.eqStr "Notification" then do
    let notif_type ← pyGetD event "notification_type" (Json.str "")
    let key := "notification_" ++ pyStrOf notif_type
    let fallback ← pyGetD messages "notification_default" (Json.str "{message}")
    let template ← pyGetD messages key fallback
    let raw_message ← pyGetD event "message" (Json.str "Notification")
    let text ← pyReplaceJ template "{message}" raw_message
    pure (some (Json.str (_truncate text MAX_MESSAGE_LENGTH)))

  else
    pure none

-- ---------------------------------------------------------------------------
-- notify.py: load_config, main, top-level handler
-- ---------------------------------------------------------------------------

/-- The observable states of `config.json` beside the script. -/
inductive ConfigFileState where
  | absent : ConfigFileState
  | unreadable : ConfigFileState
  | malformed : ConfigFileState
  | valid (j : Json) : ConfigFileState

/-- `open(config_path)` + `json.load(f)` (the body of the `try` in
`load_config`): a missing file raises `FileNotFoundError`, a file without
read permission raises `PermissionError`, unparseable content raises
`json.JSONDecodeError`. -/
def read_config_file : ConfigFileState → Except PyExc Json
  | .absent => .error .fileNotFoundError
  | .unreadable => .error .permissionError
  | .malformed => .error .jsonDecodeError
  | .valid j => .ok j

/-- `notify.py` lines 61-68: `load_config`.  The `Nat` counts diagnostics
printed to standard error.  Only `FileNotFoundError` and `JSONDecodeError`
are caught. -/
def load_config (st : ConfigFileState) : Except PyExc (Json × Nat) :=
  match read_config_file st with
  | .ok j => .ok (j, 0)
  | .error e =>
    if e = .fileNotFoundError || e = .jsonDecodeError then .ok (DEFAULT_CONFIG, 1)
    else .error e

/-- What `sys.stdin.read()` + the guard on line 194 yield: whitespace-only
input, input on which `json.loads` raises, or a parsed JSON document. -/
inductive StdinInput where
  | blank : StdinInput
  | malformed : StdinInput
  | parsed (j : Json) : StdinInput

/-- Lines 204-206 of `main`: resolve, then speak only a truthy message.
`.ok (some m)` means the Speech Synthesizer and Audio Player are invoked
with `m`; `.ok none` means they are not. -/
def mainTail (event config : Json) (fs : FS) : Except PyExc (Option Json) := do
  let message ← resolve_message event config fs
  match message with
  | some m => if m.truthy then pure (some m) else pure none
  | none => pure none

/-- `notify.py` lines 192-206: `main`.  The result is `some m` when `speak`
is reached with message `m`, `none` when `main` returns without speaking.
The debug-log write itself is an ignored effect, but the `config.get`
guarding it runs (it can raise on a non-object config document). -/
def mainRun (stdin : StdinInput) (cf : ConfigFileState) (fs : FS) :
    Except PyExc (Option Json) := do
  let event ←
    match stdin with
    | .blank => pure (Json.obj [])
    | .malformed => throw PyExc.jsonDecodeError
    | .parsed j => pure j
  let (config, _) ← load_config cf
  let _ ← pyGetD config "debug" (Json.bool false)
  let enabled ← pyGetD config "enabled" (Json.bool true)
  if ¬ enabled.truthy then pure none
  else mainTail event config fs

/-- `notify.py` lines 209-214: the `if __name__ == "__main__"` guard.  First
component: the process exit code.  Second: the exception whose message is
printed to standard error, when one reached the boundary. -/
def entry_point (stdin : StdinInput) (cf : ConfigFileState) (fs : FS) :
    Nat × Option PyExc :=
  match mainRun stdin cf fs with
  | .ok _ => (0, none)
  | .error e => (0, some e)

-- ---------------------------------------------------------------------------
-- Well-typedness predicates (the hypotheses under which the resolver cannot
-- raise: every value the code uses as a `str` is one, every structure it
-- indexes as a dict/list is one)
-- ---------------------------------------------------------------------------

/-- The value bound to `key`, when present, is a Python `str`. -/
def strIfPresent (kvs : List (String × Json)) (key : String) : Prop :=
  ∀ v, dictGet kvs key = some v → ∃ s, v = Json.str s

/-- Well-typedness of a `messages` mapping: every template value is a string. -/
def WTMessages (m : List (String × Json)) : Prop :=
  ∀ k v, dictGet m k = some v → ∃ s, v = Json.str s

/-- Well-typedness of the event fields that `resolve_message` uses where
Python requires a `str`. -/
def WTEvent (ev : List (String × Json)) : Prop :=
  strIfPresent ev "transcript_summary" ∧ strIfPresent ev "transcript_path" ∧
    strIfPresent ev "message"

/-- Well-typedness of one content block of an assistant transcript entry:
a JSON object whose `text` value, when present, is a string. -/
def WTBlock (b : Json) : Prop :=
  ∃ kvs, b = Json.obj kvs ∧ strIfPresent kvs "text"

/-- Well-typed transcript entry: a JSON object; when it is an assistant entry,
a present `message` is an object and that object's present `content` is an
array of well-typed blocks. -/
def WTEntry (e : Json) : Prop :=
  ∃ kvs, e = Json.obj kvs ∧
    (dictGet kvs "type" = some (Json.str "assistant") →
      ∀ mv, dictGet kvs "message" = some mv →
        ∃ mkvs, mv = Json.obj mkvs ∧
          (∀ cv, dictGet mkvs "content" = some cv →
            ∃ bs, cv = Json.arr bs ∧ ∀ b ∈ bs, WTBlock b))

/-- Well-typed transcript file: every line that parses at all parses to a
well-typed entry (lines that fail to parse are allowed: they abort the scan
through a caught `JSONDecodeError`). -/
def WTFile (lines : List (Option Json)) : Prop :=
  ∀ j : Json, some j ∈ lines → WTEntry j

/-- Every readable file of the filesystem is a well-typed transcript. -/
def WTFS (fs : FS) : Prop :=
  ∀ p lines, fs p = some lines → WTFile lines

/-- Well-typed configuration: the `messages` value, when present, is an object
all of whose values are strings. -/
def WTConfig (cv : List (String × Json)) : Prop :=
  ∀ v, dictGet cv "messages" = some v → ∃ m, v = Json.obj m ∧ WTMessages m

/-- The last non-empty stripped line of the captured assistant text (what the
summarizer snips), or the stripped text itself when every line is blank. -/
def lastNonEmptyLine (t : String) : String :=
  ((pySplitlines (pyStrip t)).filterMap
      (fun l => if pyStrip l = "" then none else some (pyStrip l))).getLast?.getD
    (pyStrip t)

-- ---------------------------------------------------------------------------
-- General lemmas about the embedding
-- ---------------------------------------------------------------------------

theorem ok_bind {α β : Type} (a : α) (f : α → Except PyExc β) :
    (Except.ok a >>= f) = f a := rfl

theorem error_bind {α β : Type} (e : PyExc) (f : α → Except PyExc β) :
    ((Except.error e : Except PyExc α) >>= f) = Except.error e := rfl

theorem pure_eq_ok {α : Type} (a : α) : (pure a : Except PyExc α) = Except.ok a := rfl

/-- `summarize_snippet` through the named `lastNonEmptyLine`. -/
theorem summarize_snippet_eq (t : String) :
    summarize_snippet t =
      if 0 < firstIdxOf (lastNonEmptyLine t).data '.' ∧
          firstIdxOf (lastNonEmptyLine t).data '.' < 150 then
        pyTake (lastNonEmptyLine t) ((firstIdxOf (lastNonEmptyLine t).data '.').toNat + 1)
      else
        pyTake (lastNonEmptyLine t) 150 := rfl

theorem data_append (s t : String) : (s ++ t).data = s.data ++ t.data := rfl

theorem mk_data (s : String) : String.mk s.data = s := rfl

theorem pyLen_take (s : String) (n : Nat) : pyLen (pyTake s n) = min n (pyLen s) := by
  simp [pyLen, pyTake]

theorem length_rstrip_le (s : String) : pyLen (pyRstrip s) ≤ pyLen s := by
  simp only [pyLen, pyRstrip, List.length_reverse]
  exact le_trans (List.dropWhile_suffix _).sublist.length_le (by simp)

theorem lastIdxOf_lt_length (cs : List Char) (c : Char) :
    lastIdxOf cs c < (cs.length : Int) := by
  induction cs with
  | nil => simp [lastIdxOf]
  | cons x xs ih =>
    simp only [lastIdxOf, List.length_cons]
    split
    · push_cast
      omega
    · split <;> push_cast <;> omega

theorem lastIdxOf_eq_neg (cs : List Char) (c : Char) (h : c ∉ cs) :
    lastIdxOf cs c = -1 := by
  induction cs with
  | nil => rfl
  | cons x xs ih =>
    simp only [List.mem_cons, not_or] at h
    have hx : ¬ x = c := fun hx => h.1 hx.symm
    simp [lastIdxOf, ih h.2, hx]

/-- Zeta-reduced form of `_truncate` for proofs. -/
theorem _truncate_eq (text : String) (max_len : Nat) :
    _truncate text max_len =
      if pyLen text ≤ max_len then text
      else if lastIdxOf (pyTake text max_len).data '.' > (max_len : Int) / 2 then
        pyTake (pyTake text max_len) ((lastIdxOf (pyTake text max_len).data '.').toNat + 1)
      else
        pyRstrip (pyTake text max_len) ++ "." := rfl

-- ---------------------------------------------------------------------------
-- C7, C8, C10: the length-capping function _truncate
-- ---------------------------------------------------------------------------

/-- C7: for every text, `_truncate` at the default maximum
(`MAX_MESSAGE_LENGTH = 200`) returns a string of length at most 201
characters. -/
theorem C7_truncate_within_201 (text : String) :
    MAX_MESSAGE_LENGTH = 200 ∧ pyLen (_truncate text MAX_MESSAGE_LENGTH) ≤ 201 := by
  refine ⟨rfl, ?_⟩
  show pyLen (_truncate text 200) ≤ 201
  rw [_truncate_eq]
  split
  · next h => omega
  · next h =>
    split
    · next hp =>
      rw [pyLen_take]
      have hl : pyLen (pyTake text 200) = 200 := by
        rw [pyLen_take]
        omega
      rw [hl]
      omega
    · next hp =>
      have h1 := length_rstrip_le (pyTake text 200)
      have h2 : pyLen (pyTake text 200) ≤ 200 := by rw [pyLen_take]; omega
      have h3 : (".".data.length) = 1 := rfl
      simp only [pyLen, data_append, List.length_append] at *
      omega

/-- C8: for every text longer than 200 characters that contains no period
anywhere, `_truncate` at the default maximum returns the 200-character hard
prefix, stripped of trailing whitespace, with a single period appended. -/
theorem C8_truncate_no_period (text : String)
    (h1 : 200 < pyLen text) (h2 : '.' ∉ text.data) :
    _truncate text MAX_MESSAGE_LENGTH = pyRstrip (pyTake text 200) ++ "." := by
  show _truncate text 200 = _
  rw [_truncate_eq]
  have hnot : '.' ∉ (pyTake text 200).data := by
    intro hmem
    exact h2 (List.take_subset _ _ (by simpa [pyTake] using hmem))
  have hidx : lastIdxOf (pyTake text 200).data '.' = -1 := lastIdxOf_eq_neg _ _ hnot
  rw [if_neg (by omega), hidx, if_neg (by norm_num)]

/-- Witness for C8 on the concrete 201-character text `"a" * 201`. -/
theorem C8_truncate_no_period_witness :
    200 < pyLen (String.mk (List.replicate 201 'a')) ∧
    '.' ∉ (String.mk (List.replicate 201 'a')).data ∧
    _truncate (String.mk (List.replicate 201 'a')) MAX_MESSAGE_LENGTH =
      pyRstrip (pyTake (String.mk (List.replicate 201 'a')) 200) ++ "." := by
  have ha : 200 < pyLen (String.mk (List.replicate 201 'a')) := by
    show 200 < (List.replicate 201 'a').length
    rw [List.length_replicate]
    omega
  have hb : '.' ∉ (String.mk (List.replicate 201 'a')).data := by
    intro hmem
    rw [List.mem_replicate] at hmem
    exact absurd hmem.2 (by decide)
  exact ⟨ha, hb, C8_truncate_no_period _ ha hb⟩

/-- C10: for every text and every maximum, `_truncate` returns either a prefix
of the text, or a prefix of the text with trailing whitespace removed and
exactly one period appended; no other characters are introduced, altered or
reordered. -/
theorem C10_truncate_prefix_shape (text : String) (max_len : Nat) :
    ∃ n, _truncate text max_len = pyTake text n ∨
      _truncate text max_len = pyRstrip (pyTake text n) ++ "." := by
  rw [_truncate_eq]
  split
  · refine ⟨pyLen text, Or.inl ?_⟩
    simp only [pyTake, pyLen, List.take_length]
  · split
    · refine ⟨min ((lastIdxOf (pyTake text max_len).data '.').toNat + 1) max_len,
        Or.inl ?_⟩
      simp [pyTake, List.take_take]
    · exact ⟨max_len, Or.inr rfl⟩

-- ---------------------------------------------------------------------------
-- C3: the top-level handler
-- ---------------------------------------------------------------------------

/-- C3: for every standard input, configuration-file state and filesystem,
the process exit code is 0; when an error reaches the outermost boundary its
message is printed to standard error (second component), and a normal run
prints nothing there. -/
theorem C3_exit_code_always_zero (stdin : StdinInput) (cf : ConfigFileState) (fs : FS) :
    (entry_point stdin cf fs).1 = 0 ∧
    (∀ e, mainRun stdin cf fs = Except.error e → (entry_point stdin cf fs).2 = some e) ∧
    (∀ r, mainRun stdin cf fs = Except.ok r → (entry_point stdin cf fs).2 = none) := by
  refine ⟨?_, ?_, ?_⟩
  · unfold entry_point
    split <;> rfl
  · intro e he
    unfold entry_point
    rw [he]
  · intro r hr
    unfold entry_point
    rw [hr]

/-- Witness for C3: malformed standard input under an absent configuration
file is caught, reported, and exits 0. -/
theorem C3_exit_code_always_zero_witness :
    (entry_point StdinInput.malformed ConfigFileState.absent (fun _ => none)).1 = 0 ∧
    (entry_point StdinInput.malformed ConfigFileState.absent (fun _ => none)).2 =
      some PyExc.jsonDecodeError :=
  ⟨(C3_exit_code_always_zero StdinInput.malformed ConfigFileState.absent (fun _ => none)).1,
   (C3_exit_code_always_zero StdinInput.malformed ConfigFileState.absent
      (fun _ => none)).2.1 PyExc.jsonDecodeError rfl⟩

-- ---------------------------------------------------------------------------
-- C4: load_config
-- ---------------------------------------------------------------------------

/-- C4 counterexample: an unreadable configuration file raises
`PermissionError` inside `open`, which `except (FileNotFoundError,
json.JSONDecodeError)` does not catch, so `load_config` raises past its
boundary, contradicting the claim for the "unreadable" state. -/
theorem C4_counterexample :
    load_config ConfigFileState.unreadable = Except.error PyExc.permissionError := rfl

/-- C4 (amended): for an absent, malformed or valid configuration file,
`load_config` returns the parsed document (valid, no diagnostic) or the
built-in default mapping after exactly one diagnostic on the error stream,
and never raises; only an unreadable file (permission error) escapes. -/
theorem C4_load_config_amended (st : ConfigFileState)
    (h : st ≠ ConfigFileState.unreadable) :
    (∃ j, st = ConfigFileState.valid j ∧ load_config st = Except.ok (j, 0)) ∨
      load_config st = Except.ok (DEFAULT_CONFIG, 1) := by
  cases st with
  | absent => exact Or.inr rfl
  | unreadable => exact absurd rfl h
  | malformed => exact Or.inr rfl
  | valid j => exact Or.inl ⟨j, rfl, rfl⟩

/-- Witness for C4 at the absent configuration file. -/
theorem C4_load_config_amended_witness :
    ConfigFileState.absent ≠ ConfigFileState.unreadable ∧
    ((∃ j, ConfigFileState.absent = ConfigFileState.valid j ∧
        load_config ConfigFileState.absent = Except.ok (j, 0)) ∨
      load_config ConfigFileState.absent = Except.ok (DEFAULT_CONFIG, 1)) :=
  ⟨fun h => ConfigFileState.noConfusion h,
   C4_load_config_amended ConfigFileState.absent (fun h => ConfigFileState.noConfusion h)⟩

-- ---------------------------------------------------------------------------
-- C5: per-key fallback of the messages mapping
-- ---------------------------------------------------------------------------

/-- C5 counterexample: a Notification event of sub-type `idle_prompt` under a
`messages` mapping lacking both `notification_idle_prompt` and
`notification_default` resolves through the literal `"{message}"` fallback to
`"Notification"` — not through the built-in
`"Waiting for your input."` template the claim names. -/
theorem C5_counterexample :
    resolve_message
        (Json.obj [("hook_event_name", Json.str "Notification"),
                   ("notification_type", Json.str "idle_prompt")])
        (Json.obj [("messages", Json.obj [])]) (fun _ => none) =
      Except.ok (some (Json.str "Notification")) ∧
    ("Notification" : String) ≠ "Waiting for your input." :=
  ⟨rfl, by decide⟩

/-- C5 (amended): a `messages` mapping that is present but missing keys falls
back per-key to the literal defaults written at the use sites: for
`prompt_submit` and `stop` these literals coincide with the built-in default
templates ("On it.", "Done. {summary}"); a missing `notification_<sub-type>`
key falls back to the configured `notification_default`, and when that is also
missing, to the literal `"{message}"` template — not to the per-key built-in
notification template. -/
theorem C5_messages_fallback (m : List (String × Json))
    (h1 : dictGet m "prompt_submit" = none)
    (h2 : dictGet m "stop" = none)
    (h3 : dictGet m "notification_idle_prompt" = none)
    (h4 : dictGet m "notification_default" = none) :
    resolve_message (Json.obj [("hook_event_name", Json.str "UserPromptSubmit")])
        (Json.obj [("messages", Json.obj m)]) (fun _ => none) =
      Except.ok (some (Json.str "On it.")) ∧
    resolve_message (Json.obj [("hook_event_name", Json.str "Stop")])
        (Json.obj [("messages", Json.obj m)]) (fun _ => none) =
      Except.ok (some (Json.str "Done.")) ∧
    resolve_message
        (Json.obj [("hook_event_name", Json.str "Notification"),
                   ("notification_type", Json.str "idle_prompt")])
        (Json.obj [("messages", Json.obj m)]) (fun _ => none) =
      Except.ok (some (Json.str "Notification")) := by
  refine ⟨?_, ?_, ?_⟩
  · have e1 : resolve_message (Json.obj [("hook_event_name", Json.str "UserPromptSubmit")])
        (Json.obj [("messages", Json.obj m)]) (fun _ => none) =
        Except.ok (some ((dictGet m "prompt_submit").getD (Json.str "On it."))) := rfl
    rw [e1, h1]
    rfl
  · have e2 : resolve_message (Json.obj [("hook_event_name", Json.str "Stop")])
        (Json.obj [("messages", Json.obj m)]) (fun _ => none) =
        (do
          let t ← pyReplaceJ ((dictGet m "stop").getD (Json.str "Done. {summary}"))
            "{summary}" (Json.str "")
          pure (some (Json.str (_truncate (pyStrip t) MAX_MESSAGE_LENGTH)))) := rfl
    rw [e2, h2]
    rfl
  · have e3 : resolve_message
        (Json.obj [("hook_event_name", Json.str "Notification"),
                   ("notification_type", Json.str "idle_prompt")])
        (Json.obj [("messages", Json.obj m)]) (fun _ => none) =
        (do
          let t ← pyReplaceJ
            ((dictGet m "notification_idle_prompt").getD
              ((dictGet m "notification_default").getD (Json.str "{message}")))
            "{message}" (Json.str "Notification")
          pure (some (Json.str (_truncate t MAX_MESSAGE_LENGTH)))) := rfl
    rw [e3, h3, h4]
    rfl

/-- Witness for C5 at the empty (but present) messages mapping. -/
theorem C5_messages_fallback_witness :
    resolve_message (Json.obj [("hook_event_name", Json.str "UserPromptSubmit")])
        (Json.obj [("messages", Json.obj [])]) (fun _ => none) =
      Except.ok (some (Json.str "On it.")) ∧
    resolve_message (Json.obj [("hook_event_name", Json.str "Stop")])
        (Json.obj [("messages", Json.obj [])]) (fun _ => none) =
      Except.ok (some (Json.str "Done.")) ∧
    resolve_message
        (Json.obj [("hook_event_name", Json.str "Notification"),
                   ("notification_type", Json.str "idle_prompt")])
        (Json.obj [("messages", Json.obj [])]) (fun _ => none) =
      Except.ok (some (Json.str "Notification")) :=
  C5_messages_fallback [] rfl rfl rfl rfl

-- ---------------------------------------------------------------------------
-- C2: the transcript summarizer's snippet step
-- ---------------------------------------------------------------------------

theorem pyTake_all (s : String) (n : Nat) (h : pyLen s ≤ n) : pyTake s n = s := by
  simp only [pyTake, pyLen] at *
  rw [List.take_of_length_le h]

/-- C2 counterexample: the scan captures `"Hi. Bye"` — a single line of 7
characters, well within the 150-character cap — yet the summarizer returns
`"Hi."`: the code cuts at the first period whenever it occurs before
position 150, regardless of the line's length. -/
theorem C2_counterexample :
    captured_text
        (fun p => if p = "t.jsonl" then
          some [some (Json.obj [("type", Json.str "assistant"),
            ("message", Json.obj [("content", Json.arr
              [Json.obj [("type", Json.str "text"), ("text", Json.str "Hi. Bye")]])])])]
          else none)
        (Json.str "t.jsonl") = Except.ok (Json.str "Hi. Bye") ∧
    lastNonEmptyLine "Hi. Bye" = "Hi. Bye" ∧
    pyLen "Hi. Bye" ≤ 150 ∧
    _extract_summary
        (fun p => if p = "t.jsonl" then
          some [some (Json.obj [("type", Json.str "assistant"),
            ("message", Json.obj [("content", Json.arr
              [Json.obj [("type", Json.str "text"), ("text", Json.str "Hi. Bye")]])])])]
          else none)
        (Json.str "t.jsonl") = Except.ok "Hi." ∧
    ("Hi." : String) ≠ "Hi. Bye" :=
  ⟨rfl, rfl, by decide, rfl, by decide⟩

/-- C2 (amended): when the scan captures assistant text `t`, the summarizer
returns `summarize_snippet t`, which is the last non-empty line of `t`
unchanged when that line is within the 150-character cap and its first
period is not at a position `p` with `0 < p < 150`; when the first period
lies at such a position the line is truncated to just after it — even when
the line is within the cap; otherwise the line is hard-truncated at 150. -/
theorem C2_summarizer_snippet (fs : FS) (path : Json) (t : String)
    (hc : captured_text fs path = Except.ok (Json.str t)) (ht : t ≠ "") :
    _extract_summary fs path = Except.ok (summarize_snippet t) ∧
    (pyLen (lastNonEmptyLine t) ≤ 150 →
      ¬ (0 < firstIdxOf (lastNonEmptyLine t).data '.' ∧
          firstIdxOf (lastNonEmptyLine t).data '.' < 150) →
      summarize_snippet t = lastNonEmptyLine t) ∧
    ((0 < firstIdxOf (lastNonEmptyLine t).data '.' ∧
        firstIdxOf (lastNonEmptyLine t).data '.' < 150) →
      summarize_snippet t =
        pyTake (lastNonEmptyLine t) ((firstIdxOf (lastNonEmptyLine t).data '.').toNat + 1)) ∧
    (¬ (0 < firstIdxOf (lastNonEmptyLine t).data '.' ∧
        firstIdxOf (lastNonEmptyLine t).data '.' < 150) →
      summarize_snippet t = pyTake (lastNonEmptyLine t) 150) := by
  have htt : (Json.str t).truthy = true := by
    simp [Json.truthy, ht]
  have hb : extract_body fs path = Except.ok (summarize_snippet t) := by
    unfold extract_body
    rw [hc]
    show (if (Json.str t).truthy = true then Except.ok (summarize_snippet t)
      else Except.ok "") = Except.ok (summarize_snippet t)
    rw [htt]
    simp
  refine ⟨?_, ?_, ?_, ?_⟩
  · unfold _extract_summary
    rw [hb]
  · intro hlen hnp
    rw [summarize_snippet_eq, if_neg hnp]
    exact pyTake_all _ _ hlen
  · intro hp
    rw [summarize_snippet_eq, if_pos hp]
  · intro hnp
    rw [summarize_snippet_eq, if_neg hnp]

/-- Witness for C2 on a transcript whose captured text is `"All good"`. -/
theorem C2_summarizer_snippet_witness :
    _extract_summary
        (fun p => if p = "t.jsonl" then
          some [some (Json.obj [("type", Json.str "assistant"),
            ("message", Json.obj [("content", Json.arr
              [Json.obj [("type", Json.str "text"), ("text", Json.str "All good")]])])])]
          else none)
        (Json.str "t.jsonl") = Except.ok (summarize_snippet "All good") ∧
    summarize_snippet "All good" = "All good" := by
  have h := C2_summarizer_snippet
    (fun p => if p = "t.jsonl" then
      some [some (Json.obj [("type", Json.str "assistant"),
        ("message", Json.obj [("content", Json.arr
          [Json.obj [("type", Json.str "text"), ("text", Json.str "All good")]])])])]
      else none)
    (Json.str "t.jsonl") "All good" rfl (by decide)
  exact ⟨h.1, h.2.1 (by decide) (by decide)⟩

-- ---------------------------------------------------------------------------
-- C6: the template-rendering step (str.replace)
-- ---------------------------------------------------------------------------

theorem replaceAux_fuel_irrel (pat rep : List Char) :
    ∀ fuel₁ fuel₂ l, l.length ≤ fuel₁ → l.length ≤ fuel₂ →
      replaceAux pat rep fuel₁ l = replaceAux pat rep fuel₂ l := by
  intro fuel₁
  induction fuel₁ with
  | zero =>
    intro fuel₂ l h1 h2
    have hl : l = [] := List.eq_nil_of_length_eq_zero (Nat.le_zero.mp h1)
    subst hl
    cases fuel₂ <;> rfl
  | succ f ih =>
    intro fuel₂ l h1 h2
    cases l with
    | nil => cases fuel₂ <;> rfl
    | cons c cs =>
      cases fuel₂ with
      | zero => simp at h2
      | succ f₂ =>
        simp only [List.length_cons] at h1 h2
        by_cases hp : pat.isPrefixOf (c :: cs) = true
        · simp only [replaceAux, if_pos hp]
          have hrec := ih f₂ (cs.drop (pat.length - 1))
            (by simp only [List.length_drop]; omega)
            (by simp only [List.length_drop]; omega)
          rw [hrec]
        · simp only [replaceAux, if_neg hp]
          have hrec := ih f₂ cs (by omega) (by omega)
          rw [hrec]

theorem replaceAux_no_occ (pat rep : List Char) :
    ∀ fuel l, l.length ≤ fuel → (∀ j, pat.isPrefixOf (l.drop j) = false) →
      replaceAux pat rep fuel l = l := by
  intro fuel
  induction fuel with
  | zero =>
    intro l h1 _
    have hl : l = [] := List.eq_nil_of_length_eq_zero (Nat.le_zero.mp h1)
    subst hl
    rfl
  | succ f ih =>
    intro l h1 hocc
    cases l with
    | nil => rfl
    | cons c cs =>
      have h0 : pat.isPrefixOf (c :: cs) = false := by simpa using hocc 0
      have hn : ¬ pat.isPrefixOf (c :: cs) = true := by simp [h0]
      simp only [replaceAux, if_neg hn]
      have hrec := ih cs (by simp only [List.length_cons] at h1; omega)
        (fun j => by simpa [List.drop_succ_cons] using hocc (j + 1))
      rw [hrec]

theorem replaceAux_first_occ (pat rep : List Char) (hpat : pat ≠ []) :
    ∀ i fuel l, l.length ≤ fuel → pat.isPrefixOf (l.drop i) = true →
      (∀ j, j < i → pat.isPrefixOf (l.drop j) = false) →
      replaceAux pat rep fuel l =
        l.take i ++ rep ++
          replaceAux pat rep (l.drop (i + pat.length)).length (l.drop (i + pat.length)) := by
  intro i
  induction i with
  | zero =>
    intro fuel l h1 hp hocc
    cases l with
    | nil =>
      rw [List.drop_nil] at hp
      cases pat with
      | nil => exact absurd rfl hpat
      | cons p ps => simp [List.isPrefixOf] at hp
    | cons c cs =>
      cases fuel with
      | zero => simp at h1
      | succ f =>
        rw [List.drop_zero] at hp
        simp only [replaceAux, if_pos hp, List.take_zero, List.nil_append, Nat.zero_add]
        have hd : (c :: cs).drop pat.length = cs.drop (pat.length - 1) := by
          cases pat with
          | nil => exact absurd rfl hpat
          | cons p ps => simp [List.drop_succ_cons]
        rw [hd]
        have hrec := replaceAux_fuel_irrel pat rep f
          (cs.drop (pat.length - 1)).length (cs.drop (pat.length - 1))
          (by simp only [List.length_cons] at h1; simp only [List.length_drop]; omega)
          le_rfl
        rw [hrec]
  | succ i ih =>
    intro fuel l h1 hp hocc
    cases l with
    | nil =>
      rw [List.drop_nil] at hp
      cases pat with
      | nil => exact absurd rfl hpat
      | cons p ps => simp [List.isPrefixOf] at hp
    | cons c cs =>
      cases fuel with
      | zero => simp at h1
      | succ f =>
        have h0 : pat.isPrefixOf (c :: cs) = false := by
          simpa using hocc 0 (Nat.succ_pos i)
        have hn : ¬ pat.isPrefixOf (c :: cs) = true := by simp [h0]
        simp only [replaceAux, if_neg hn]
        have hrec := ih f cs (by simp only [List.length_cons] at h1; omega)
          (by simpa [List.drop_succ_cons] using hp)
          (fun j hj => by
            simpa [List.drop_succ_cons] using hocc (j + 1) (Nat.succ_lt_succ hj))
        rw [hrec]
        rw [List.take_succ_cons]
        have harith : i + 1 + pat.length = (i + pat.length) + 1 := by omega
        rw [harith, List.drop_succ_cons, List.cons_append, List.cons_append]

/-- C6: the rendering step of the resolver (Python `str.replace`, embedded as
`pyReplace` and called through `pyReplaceJ` in both the Stop and the
Notification branch of `resolve_message`): (1) a template containing no
occurrence of the recognized placeholder — in particular one containing only
unrecognized placeholders — is returned untouched; (2) at the leftmost
occurrence of the recognized placeholder, the text before it is preserved,
exactly one copy of the substitution value replaces the placeholder, and
rendering continues on the text after it (so every occurrence is substituted
exactly once and the substituted value is never rescanned). -/
theorem C6_template_rendering (tmpl pat rep : String) (hpat : pat.data ≠ []) :
    ((∀ j, j < tmpl.data.length → pat.data.isPrefixOf (tmpl.data.drop j) = false) →
      pyReplace tmpl pat rep = tmpl) ∧
    (∀ i, pat.data.isPrefixOf (tmpl.data.drop i) = true →
      (∀ j, j < i → pat.data.isPrefixOf (tmpl.data.drop j) = false) →
      pyReplace tmpl pat rep =
        String.mk (tmpl.data.take i ++ rep.data ++
          (pyReplace (String.mk (tmpl.data.drop (i + pat.data.length))) pat rep).data)) := by
  constructor
  · intro h
    have hall : ∀ j, pat.data.isPrefixOf (tmpl.data.drop j) = false := by
      intro j
      by_cases hj : j < tmpl.data.length
      · exact h j hj
      · have hnil : tmpl.data.drop j = [] := List.drop_eq_nil_of_le (by omega)
        rw [hnil]
        cases hpd : pat.data with
        | nil => exact absurd hpd hpat
        | cons p ps => rfl
    unfold pyReplace
    rw [replaceAux_no_occ pat.data rep.data tmpl.data.length tmpl.data le_rfl hall]
  · intro i hp hocc
    unfold pyReplace
    rw [replaceAux_first_occ pat.data rep.data hpat i tmpl.data.length tmpl.data
      le_rfl hp hocc]

/-- Witness for C6: rendering the Stop template `"Done. {summary} {other}"`
substitutes the one `"{summary}"` occurrence and leaves the unrecognized
`"{other}"` untouched. -/
theorem C6_template_rendering_witness :
    pyReplace "Done. {summary} {other}" "{summary}" "OK" = "Done. OK {other}" := by
  have h := (C6_template_rendering "Done. {summary} {other}" "{summary}" "OK"
    (by decide)).2 6 (by decide) (by decide)
  exact h.trans (by decide)

-- ---------------------------------------------------------------------------
-- C9: when main invokes the synthesizer
-- ---------------------------------------------------------------------------

/-- C9 counterexample: with the valid configuration
`{"messages": {"prompt_submit": 5}}` and a UserPromptSubmit event, `main`
reaches `speak` with the number `5` — the synthesizer is invoked although
`resolve_message` did not return a (non-empty) string. -/
theorem C9_counterexample :
    mainRun
        (StdinInput.parsed (Json.obj [("hook_event_name", Json.str "UserPromptSubmit")]))
        (ConfigFileState.valid
          (Json.obj [("messages", Json.obj [("prompt_submit", Json.num 5)])]))
        (fun _ => none) = Except.ok (some (Json.num 5)) ∧
    Json.isStr (Json.num 5) = false :=
  ⟨rfl, rfl⟩

/-- C9 (amended): `main` invokes the Speech Synthesizer and Audio Player
exactly when `resolve_message` returns a truthy value (`if message:`); when
the resolved value is a string or the absent value this coincides with the
claim — the synthesizer runs iff the string is non-empty, and an empty
string behaves exactly as if no message had been resolved — but a truthy
non-string configuration value is also spoken. -/
theorem C9_speak_iff_truthy (event config : Json) (fs : FS) (r : Option Json)
    (h : resolve_message event config fs = Except.ok r) :
    mainTail event config fs =
      Except.ok (if (r.getD Json.null).truthy = true then r else none) ∧
    (∀ s, r = some (Json.str s) →
      (mainTail event config fs = Except.ok (some (Json.str s)) ↔ s ≠ "")) ∧
    (r = none → mainTail event config fs = Except.ok none) := by
  have h1 : mainTail event config fs =
      Except.ok (if (r.getD Json.null).truthy = true then r else none) := by
    cases r with
    | none =>
      unfold mainTail
      rw [h]
      rfl
    | some m =>
      unfold mainTail
      rw [h]
      show (if m.truthy = true then (pure (some m) : Except PyExc (Option Json))
          else pure none) =
        Except.ok (if m.truthy = true then some m else none)
      by_cases hm : m.truthy = true
      · rw [if_pos hm, if_pos hm]
        rfl
      · rw [if_neg hm, if_neg hm]
        rfl
  refine ⟨h1, ?_, ?_⟩
  · intro s hs
    subst hs
    rw [h1]
    show Except.ok (if (Json.str s).truthy = true then some (Json.str s) else none) =
        Except.ok (some (Json.str s)) ↔ s ≠ ""
    constructor
    · intro hmt hse
      subst hse
      simp [Json.truthy] at hmt
    · intro hsne
      rw [if_pos (by simp [Json.truthy, hsne])]
  · intro hr
    subst hr
    rw [h1]
    rfl

/-- Witness for C9: the default configuration speaks "On it." on
UserPromptSubmit. -/
theorem C9_speak_iff_truthy_witness :
    mainTail (Json.obj [("hook_event_name", Json.str "UserPromptSubmit")])
      DEFAULT_CONFIG (fun _ => none) = Except.ok (some (Json.str "On it.")) := by
  have h := C9_speak_iff_truthy
    (Json.obj [("hook_event_name", Json.str "UserPromptSubmit")])
    DEFAULT_CONFIG (fun _ => none) (some (Json.str "On it.")) rfl
  exact (h.2.1 "On it." rfl).mpr (by decide)

-- ---------------------------------------------------------------------------
-- C1: the resolver never raises (well-typedness lemmas)
-- ---------------------------------------------------------------------------

theorem pyGetD_obj (kvs : List (String × Json)) (k : String) (d : Json) :
    pyGetD (Json.obj kvs) k d = Except.ok ((dictGet kvs k).getD d) := rfl

theorem eqStr_eq (j : Json) (s : String) (h : j.eqStr s = true) : j = Json.str s := by
  cases j <;> simp [Json.eqStr] at h
  rw [h]

theorem WTMessages_of_all (l : List (String × Json))
    (h : ∀ kv ∈ l, ∃ s, kv.2 = Json.str s) : WTMessages l := by
  intro k v hv
  induction l with
  | nil => simp [dictGet] at hv
  | cons kv rest ih =>
    obtain ⟨k', v'⟩ := kv
    simp only [dictGet] at hv
    split at hv
    · obtain ⟨s, hs⟩ := h (k', v') (List.mem_cons_self _ _)
      exact ⟨s, by rw [← Option.some.inj hv]; exact hs⟩
    · exact ih (fun x hx => h x (List.mem_cons_of_mem _ hx)) hv

theorem WTMessages_default : WTMessages DEFAULT_MESSAGES := by
  refine WTMessages_of_all _ ?_
  intro kv h
  fin_cases h <;> exact ⟨_, rfl⟩

theorem blockStep_wt (a : String) (b : Json) (hb : WTBlock b) :
    (∃ t : String, blockStep (Json.str a) b = Except.ok (Json.str t)) ∨
      blockStep (Json.str a) b = Except.error PyExc.keyError := by
  obtain ⟨kvs, rfl, hstr⟩ := hb
  have hred : blockStep (Json.str a) (Json.obj kvs) =
      (if ((dictGet kvs "type").getD Json.null).eqStr "text" = true then
        pyIndex (Json.obj kvs) "text"
      else pure (Json.str a)) := rfl
  have hidx : pyIndex (Json.obj kvs) "text" =
      (match dictGet kvs "text" with
        | some v => Except.ok v
        | none => Except.error PyExc.keyError) := rfl
  by_cases hty : ((dictGet kvs "type").getD Json.null).eqStr "text" = true
  · rw [hred, if_pos hty, hidx]
    cases hv : dictGet kvs "text" with
    | none => exact Or.inr rfl
    | some v =>
      obtain ⟨s, rfl⟩ := hstr v hv
      exact Or.inl ⟨s, rfl⟩
  · rw [hred, if_neg hty]
    exact Or.inl ⟨a, rfl⟩

theorem foldBlocks_wt (bs : List Json) :
    (∀ b ∈ bs, WTBlock b) → ∀ a : String,
      (∃ t : String, bs.foldlM blockStep (Json.str a) = Except.ok (Json.str t)) ∨
        bs.foldlM blockStep (Json.str a) = Except.error PyExc.keyError := by
  induction bs with
  | nil => exact fun _ a => Or.inl ⟨a, rfl⟩
  | cons b bs ih =>
    intro hb a
    rcases blockStep_wt a b (hb b (List.mem_cons_self _ _)) with ⟨t, ht⟩ | herr
    · rw [List.foldlM_cons, ht, ok_bind]
      exact ih (fun x hx => hb x (List.mem_cons_of_mem _ hx)) t
    · rw [List.foldlM_cons, herr, error_bind]
      exact Or.inr rfl

theorem processEntry_wt (e : Json) (he : WTEntry e) (a : String) :
    (∃ t : String, processEntry e (Json.str a) = Except.ok (Json.str t)) ∨
      processEntry e (Json.str a) = Except.error PyExc.keyError := by
  obtain ⟨kvs, rfl, hmsg⟩ := he
  have hred : processEntry (Json.obj kvs) (Json.str a) =
      (if ((dictGet kvs "type").getD Json.null).eqStr "assistant" = true then
        (do
          let content ← pyGetD ((dictGet kvs "message").getD (Json.obj []))
            "content" (Json.arr [])
          let blocks ← pyIter content
          blocks.foldlM blockStep (Json.str a))
      else pure (Json.str a)) := rfl
  by_cases hty : ((dictGet kvs "type").getD Json.null).eqStr "assistant" = true
  · have htyp : dictGet kvs "type" = some (Json.str "assistant") := by
      cases hv : dictGet kvs "type" with
      | none => rw [hv] at hty; simp [Json.eqStr] at hty
      | some v =>
        rw [hv] at hty
        have hv' : v = Json.str "assistant" := eqStr_eq _ _ (by simpa using hty)
        rw [hv']
    rw [hred, if_pos hty]
    cases hmv : dictGet kvs "message" with
    | none => exact Or.inl ⟨a, rfl⟩
    | some mv =>
      obtain ⟨mkvs, rfl, hcont⟩ := hmsg htyp mv hmv
      have hred2 : ((do
          let content ← pyGetD ((some (Json.obj mkvs)).getD (Json.obj []))
            "content" (Json.arr [])
          let blocks ← pyIter content
          blocks.foldlM blockStep (Json.str a)) : Except PyExc Json) =
          (do
            let blocks ← pyIter ((dictGet mkvs "content").getD (Json.arr []))
            blocks.foldlM blockStep (Json.str a)) := rfl
      rw [hred2]
      cases hcv : dictGet mkvs "content" with
      | none => exact Or.inl ⟨a, rfl⟩
      | some cv =>
        obtain ⟨bs, rfl, hbs⟩ := hcont cv hcv
        have hred3 : ((do
            let blocks ← pyIter ((some (Json.arr bs)).getD (Json.arr []))
            blocks.foldlM blockStep (Json.str a)) : Except PyExc Json) =
            bs.foldlM blockStep (Json.str a) := rfl
        rw [hred3]
        exact foldBlocks_wt bs hbs a
  · rw [hred, if_neg hty]
    exact Or.inl ⟨a, rfl⟩

theorem scanLines_wt :
    ∀ lines : List (Option Json), WTFile lines → ∀ a : String,
      (∃ t, scanLines lines (Json.str a) = Except.ok (Json.str t)) ∨
        (∃ e, scanLines lines (Json.str a) = Except.error e ∧
          caughtByExtract e = true) := by
  intro lines
  induction lines with
  | nil => exact fun _ a => Or.inl ⟨a, rfl⟩
  | cons line rest ih =>
    intro hf a
    cases line with
    | none => exact Or.inr ⟨PyExc.jsonDecodeError, rfl, rfl⟩
    | some entry =>
      have he : WTEntry entry := hf entry (List.mem_cons_self _ _)
      have hred : scanLines (some entry :: rest) (Json.str a) =
          (processEntry entry (Json.str a) >>= fun acc => scanLines rest acc) := rfl
      rcases processEntry_wt entry he a with ⟨t, ht⟩ | herr
      · rw [hred, ht, ok_bind]
        exact ih (fun j hj => hf j (List.mem_cons_of_mem _ hj)) t
      · rw [hred, herr, error_bind]
        exact Or.inr ⟨PyExc.keyError, rfl, rfl⟩

theorem extract_summary_wt (fs : FS) (hfs : WTFS fs) (p : String) :
    ∃ s, _extract_summary fs (Json.str p) = Except.ok s := by
  have hopen : pyOpen fs (Json.str p) =
      (match fs p with
        | some lines => Except.ok lines
        | none => Except.error PyExc.fileNotFoundError) := rfl
  cases hfp : fs p with
  | none =>
    refine ⟨"", ?_⟩
    have ho : pyOpen fs (Json.str p) = Except.error PyExc.fileNotFoundError := by
      rw [hopen, hfp]
    have hb : extract_body fs (Json.str p) = Except.error PyExc.fileNotFoundError := by
      unfold extract_body captured_text
      rw [ho, error_bind, error_bind]
    unfold _extract_summary
    rw [hb]
    rfl
  | some lines =>
    have hw : WTFile lines := hfs p lines hfp
    have ho : pyOpen fs (Json.str p) = Except.ok lines := by
      rw [hopen, hfp]
    have hcap : captured_text fs (Json.str p) = scanLines lines (Json.str "") := by
      unfold captured_text
      rw [ho, ok_bind]
    rcases scanLines_wt lines hw "" with ⟨t, ht⟩ | ⟨e, he, hc⟩
    · by_cases htt : t = ""
      · subst htt
        refine ⟨"", ?_⟩
        have hb : extract_body fs (Json.str p) = Except.ok "" := by
          unfold extract_body
          rw [hcap, ht, ok_bind]
          rfl
        unfold _extract_summary
        rw [hb]
      · refine ⟨summarize_snippet t, ?_⟩
        have hb : extract_body fs (Json.str p) = Except.ok (summarize_snippet t) := by
          unfold extract_body
          rw [hcap, ht, ok_bind]
          show (if (Json.str t).truthy = true
            then (do
              let s ← pyAsStr (Json.str t)
              pure (summarize_snippet s) : Except PyExc String)
            else pure "") = Except.ok (summarize_snippet t)
          rw [if_pos (by simp [Json.truthy, htt])]
          rfl
        unfold _extract_summary
        rw [hb]
    · refine ⟨"", ?_⟩
      have hb : extract_body fs (Json.str p) = Except.error e := by
        unfold extract_body
        rw [hcap, he, error_bind]
      unfold _extract_summary
      rw [hb]
      show (if caughtByExtract e = true then (Except.ok "" : Except PyExc String)
        else Except.error e) = Except.ok ""
      rw [if_pos hc]

theorem pyReplaceJ_str (t : String) (pat : String) (r : String) :
    pyReplaceJ (Json.str t) pat (Json.str r) = Except.ok (pyReplace t pat r) := rfl

/-- C1 counterexample: a Stop event whose transcript file holds the single
line `5` — valid JSON, but not an object — makes `_extract_summary` evaluate
`entry.get("type")` on an `int`, raising `AttributeError`, which neither
`except (OSError, json.JSONDecodeError, KeyError)` nor `resolve_message`
catches: the resolver raises. -/
theorem C1_counterexample :
    resolve_message
        (Json.obj [("hook_event_name", Json.str "Stop"),
                   ("transcript_path", Json.str "t.jsonl")])
        (Json.obj [])
        (fun p => if p = "t.jsonl" then some [some (Json.num 5)] else none) =
      Except.error PyExc.attributeError := rfl

/-- C1 (amended): `resolve_message` returns normally — a message string, or
the absent value — for every event mapping, configuration mapping and
filesystem that are well-typed: the event fields used as strings
(`transcript_summary`, `transcript_path`, `message`) hold strings when
present, the `messages` value (when present) is an object of string
templates, and every transcript line that parses at all parses to a
well-typed entry.  Without these typing assumptions the resolver can raise
(`AttributeError`/`TypeError`), as the counterexample shows. -/
theorem C1_resolve_no_raise (ev cv : List (String × Json)) (fs : FS)
    (hev : WTEvent ev) (hcv : WTConfig cv) (hfs : WTFS fs) :
    ∃ r : Option String,
      resolve_message (Json.obj ev) (Json.obj cv) fs =
        Except.ok (r.map Json.str) := by
  obtain ⟨hsum, hpath, hmsgf⟩ := hev
  have hM : ∃ m, (dictGet cv "messages").getD (Json.obj DEFAULT_MESSAGES) =
      Json.obj m ∧ WTMessages m := by
    cases hmv : dictGet cv "messages" with
    | none => exact ⟨DEFAULT_MESSAGES, rfl, WTMessages_default⟩
    | some v =>
      obtain ⟨m, rfl, hm⟩ := hcv v hmv
      exact ⟨m, rfl, hm⟩
  obtain ⟨m, hMeq, hWm⟩ := hM
  simp only [resolve_message, pyGetD_obj, ok_bind, hMeq, pure_eq_ok]
  by_cases hU : ((dictGet ev "hook_event_name").getD (Json.str "")).eqStr
      "UserPromptSubmit" = true
  · rw [if_pos hU]
    cases hpv : dictGet m "prompt_submit" with
    | none => exact ⟨some "On it.", rfl⟩
    | some v =>
      obtain ⟨s, rfl⟩ := hWm _ v hpv
      exact ⟨some s, rfl⟩
  · rw [if_neg hU]
    by_cases hS : ((dictGet ev "hook_event_name").getD (Json.str "")).eqStr
        "Stop" = true
    · rw [if_pos hS]
      by_cases hsha : ((dictGet ev "stop_hook_active").getD (Json.bool false)).truthy
          = true
      · rw [if_pos hsha]
        exact ⟨none, rfl⟩
      · rw [if_neg hsha]
        have hts : ∃ ts, (dictGet m "stop").getD (Json.str "Done. {summary}") =
            Json.str ts := by
          cases hstop : dictGet m "stop" with
          | none => exact ⟨"Done. {summary}", rfl⟩
          | some v =>
            obtain ⟨s, rfl⟩ := hWm _ v hstop
            exact ⟨s, rfl⟩
        obtain ⟨ts, htseq⟩ := hts
        rw [htseq]
        have hs0 : ∃ ss, (dictGet ev "transcript_summary").getD (Json.str "") =
            Json.str ss := by
          cases hsv : dictGet ev "transcript_summary" with
          | none => exact ⟨"", rfl⟩
          | some v =>
            obtain ⟨s, rfl⟩ := hsum v hsv
            exact ⟨s, rfl⟩
        obtain ⟨ss, hsseq⟩ := hs0
        rw [hsseq]
        by_cases hs0t : (Json.str ss).truthy = true
        · rw [if_pos hs0t]
          rw [if_neg (not_not_intro hs0t)]
          simp only [pyReplaceJ_str, ok_bind]
          exact ⟨some (_truncate (pyReplace ts "{summary}" ss) MAX_MESSAGE_LENGTH), rfl⟩
        · rw [if_neg hs0t]
          have htp : ∃ tp, (dictGet ev "transcript_path").getD (Json.str "") =
              Json.str tp := by
            cases htpv : dictGet ev "transcript_path" with
            | none => exact ⟨"", rfl⟩
            | some v =>
              obtain ⟨s, rfl⟩ := hpath v htpv
              exact ⟨s, rfl⟩
          obtain ⟨tp, htpeq⟩ := htp
          rw [htpeq]
          by_cases htpt : (Json.str tp).truthy = true
          · rw [if_pos htpt]
            obtain ⟨es, hes⟩ := extract_summary_wt fs hfs tp
            rw [hes]
            simp only [ok_bind, pure_eq_ok]
            by_cases hest : (Json.str es).truthy = true
            · rw [if_neg (not_not_intro hest)]
              simp only [pyReplaceJ_str, ok_bind]
              exact ⟨some (_truncate (pyReplace ts "{summary}" es) MAX_MESSAGE_LENGTH),
                rfl⟩
            · rw [if_pos hest]
              simp only [pyReplaceJ_str, ok_bind]
              exact ⟨some (_truncate (pyStrip (pyReplace ts "{summary}" ""))
                MAX_MESSAGE_LENGTH), rfl⟩
          · rw [if_neg htpt]
            rw [if_pos hs0t]
            simp only [pyReplaceJ_str, ok_bind]
            exact ⟨some (_truncate (pyStrip (pyReplace ts "{summary}" ""))
              MAX_MESSAGE_LENGTH), rfl⟩
    · rw [if_neg hS]
      by_cases hN : ((dictGet ev "hook_event_name").getD (Json.str "")).eqStr
          "Notification" = true
      · rw [if_pos hN]
        have hfb : ∃ fb, (dictGet m "notification_default").getD
            (Json.str "{message}") = Json.str fb := by
          cases hdv : dictGet m "notification_default" with
          | none => exact ⟨"{message}", rfl⟩
          | some v =>
            obtain ⟨s, rfl⟩ := hWm _ v hdv
            exact ⟨s, rfl⟩
        obtain ⟨fb, hfbeq⟩ := hfb
        rw [hfbeq]
        have htn : ∃ ts, (dictGet m ("notification_" ++
            pyStrOf ((dictGet ev "notification_type").getD (Json.str "")))).getD
            (Json.str fb) = Json.str ts := by
          cases hkv : dictGet m ("notification_" ++
              pyStrOf ((dictGet ev "notification_type").getD (Json.str ""))) with
          | none => exact ⟨fb, rfl⟩
          | some v =>
            obtain ⟨s, rfl⟩ := hWm _ v hkv
            exact ⟨s, rfl⟩
        obtain ⟨tn, htneq⟩ := htn
        rw [htneq]
        have hrm : ∃ rm, (dictGet ev "message").getD (Json.str "Notification") =
            Json.str rm := by
          cases hrv : dictGet ev "message" with
          | none => exact ⟨"Notification", rfl⟩
          | some v =>
            obtain ⟨s, rfl⟩ := hmsgf v hrv
            exact ⟨s, rfl⟩
        obtain ⟨rm, hrmeq⟩ := hrm
        rw [hrmeq]
        simp only [pyReplaceJ_str, ok_bind]
        exact ⟨some (_truncate (pyReplace tn "{message}" rm) MAX_MESSAGE_LENGTH), rfl⟩
      · rw [if_neg hN]
        exact ⟨none, rfl⟩

/-- Witness for C1 at a concrete well-typed event, empty configuration and
empty filesystem. -/
theorem C1_resolve_no_raise_witness :
    ∃ r : Option String,
      resolve_message (Json.obj [("hook_event_name", Json.str "UserPromptSubmit")])
        (Json.obj []) (fun _ => none) = Except.ok (r.map Json.str) :=
  C1_resolve_no_raise [("hook_event_name", Json.str "UserPromptSubmit")] []
    (fun _ => none)
    ⟨fun _ h => Option.noConfusion h, fun _ h => Option.noConfusion h,
      fun _ h => Option.noConfusion h⟩
    (fun _ h => Option.noConfusion h)
    (fun _ _ h => Option.noConfusion h)
